import Mathlib

/-!
Verification of the step-advancement behaviour of the train-ticketing
page objects (`src/pages/results_page.py`, `src/pages/auth_page.py`,
`src/pages/buy_page.py`, `src/pages/base_page.py`).

The browser is modelled by an environment that records, for every fallible
operation the Python code performs, whether that operation raises, and what
the bounded signal waits observe.  Each operation of the code is translated
into a pure function from such an environment to its Python return value
(an `Except Unit Bool`, where `Except.error` models an exception escaping
the function and `Except.ok` a normal `return`) together with a trace of
the externally visible events the invocation performed, in order.
-/

/-- What one bounded wait (`ResultsPage._wait_transition`, or the
`WebDriverWait(... current_url != url_before)` waits of the auth page)
observes within its timeout: whether the current URL came to differ from
the URL captured at the start of the invocation, and whether one of the
seat-map marker elements
(`iframe[src*='seat'], iframe[title*='Seat'], canvas.seatmap, svg.seatmap,
[data-testid*='seat']`) was present. -/
structure Obs where
  urlChanged : Bool
  marker : Bool
  deriving DecidableEq, Repr

/-- `ResultsPage._wait_transition` (results_page.py lines 308-330): the wait
succeeds iff, within the timeout, the URL differed from `url_before` or a
seat-map marker element was present; on `TimeoutException` it returns
`False`. -/
def wait_transition (o : Obs) : Bool :=
  o.urlChanged || o.marker

/-- Externally visible events of one invocation, in order:
`spinnerWait` = the `wait_spinner_gone()` call, `forceValid` = a
`_force_valid()` call, `fire k` = the attempt to fire trigger number `k`
(0 = ordinary click, 1 = Actions click, 2 = JS click, 3 = Enter key,
4 = direct form submit, 5 = remove-disabled-then-JS-click),
`waitSignal k` = the bounded `_wait_transition` performed after trigger `k`,
`saveArtifacts tag` = a `save_artifacts(tag)` call (the diagnostic sink of
base_page.py lines 206-276). -/
inductive Event where
  | spinnerWait
  | forceValid
  | fire (k : Nat)
  | waitSignal (k : Nat)
  | saveArtifacts (tag : String)
  deriving DecidableEq, Repr

/-- The trigger numbers fired in a trace, in order. -/
def firesOf (tr : List Event) : List Nat :=
  tr.filterMap fun e =>
    match e with
    | Event.fire k => some k
    | _ => none

/-- Environment of one `ResultsPage.continue_next` invocation.
`forceValidRaises`: the `_force_valid()` call at line 238 raises (its
`find_elements` at line 199 is not wrapped in a `try`, so this propagates);
`currentUrlRaises`: reading `driver.current_url` at line 239 raises;
`btnFound`: the presence wait for `buttonNext` at line 242 succeeds;
`scrollRaises`: the scroll script at line 243 raises (caught by the outer
`except`); `fireRaises k`: firing trigger `k` raises; `obs k`: what the
bounded wait following trigger `k` observes. -/
structure ContinueEnv where
  forceValidRaises : Bool
  currentUrlRaises : Bool
  btnFound : Bool
  scrollRaises : Bool
  fireRaises : Nat → Bool
  obs : Nat → Obs

/-- The chain of trigger attempts of `continue_next` (results_page.py lines
245-303), started at trigger number `k` with `fuel` further triggers before
the last one.  For triggers 0-4 (the five `try` blocks at lines 245-289):
if the firing raises, the wait is skipped and the next trigger is tried;
if the wait observes a signal the function returns `True`; otherwise the
next trigger is tried.  The last trigger (lines 291-303) fires inside its
own `try` whose exceptions are swallowed, and the final
`return self._wait_transition(url_before, 8)` runs unconditionally, so its
wait happens even if its firing raised. -/
def run_triggers (env : ContinueEnv) : Nat → Nat → Bool × List Event
  | 0, k => (wait_transition (env.obs k), [Event.fire k, Event.waitSignal k])
  | fuel + 1, k =>
    if env.fireRaises k then
      ((run_triggers env fuel (k + 1)).1,
        Event.fire k :: (run_triggers env fuel (k + 1)).2)
    else if wait_transition (env.obs k) then
      (true, [Event.fire k, Event.waitSignal k])
    else
      ((run_triggers env fuel (k + 1)).1,
        Event.fire k :: Event.waitSignal k :: (run_triggers env fuel (k + 1)).2)

/-- `ResultsPage.continue_next` (results_page.py lines 225-306).
Line order: `wait_spinner_gone()` (which swallows its own exceptions),
`_force_valid()` (uncaught, so a raise propagates), capture of
`url_before` (uncaught), then the outer `try` containing the presence wait
for the button, the scroll, and the six trigger attempts; the outer
`except Exception: return False` turns any uncaught exception inside the
`try` into an ordinary `False`. -/
def continue_next (env : ContinueEnv) : Except Unit Bool × List Event :=
  if env.forceValidRaises = true then
    (Except.error (), [Event.spinnerWait, Event.forceValid])
  else if env.currentUrlRaises = true then
    (Except.error (), [Event.spinnerWait, Event.forceValid])
  else if env.btnFound = false then
    (Except.ok false, [Event.spinnerWait, Event.forceValid])
  else if env.scrollRaises = true then
    (Except.ok false, [Event.spinnerWait, Event.forceValid])
  else
    (Except.ok (run_triggers env 5 0).1,
      Event.spinnerWait :: Event.forceValid :: (run_triggers env 5 0).2)

/-- The form state touched by `ResultsPage._force_valid` (results_page.py
lines 174-223): whether the `GO` radio of the picked row is checked, and
the checked state of each checkbox matching the `TERMS_ANY` selector. -/
structure FormState where
  goChecked : Bool
  termsChecked : List Bool
  deriving DecidableEq, Repr

/-- Effect of `ResultsPage._force_valid` on the form state (its
exception-free runs): the `GO` radio is clicked (or script-checked) when
unchecked, and every `TERMS_ANY` checkbox that is unchecked is
script-checked with synthetic `input`/`change` events dispatched. -/
def force_valid (s : FormState) : FormState :=
  ⟨true, s.termsChecked.map fun _ => true⟩

/-- The advance-retry-capture portion of `ResultsPage.select_ap125`
(results_page.py lines 94-114, steps 7-10): call `continue_next` (first
invocation, environment `env1`); if it returned `False`, call
`_force_valid()` (at line 102, uncaught, raising iff `fvRaises`) and retry
`continue_next` (environment `env2`); if still `False`, call
`save_artifacts("auth_gate")` (whose exceptions are swallowed) and return
`False`. -/
def select_ap125_advance (fvRaises : Bool) (env1 env2 : ContinueEnv) :
    Except Unit Bool × List Event :=
  match (continue_next env1).1 with
  | Except.error e => (Except.error e, (continue_next env1).2)
  | Except.ok true => (Except.ok true, (continue_next env1).2)
  | Except.ok false =>
    if fvRaises = true then
      (Except.error (), (continue_next env1).2 ++ [Event.forceValid])
    else
      match (continue_next env2).1 with
      | Except.error e =>
        (Except.error e,
          (continue_next env1).2 ++ [Event.forceValid] ++ (continue_next env2).2)
      | Except.ok true =>
        (Except.ok true,
          (continue_next env1).2 ++ [Event.forceValid] ++ (continue_next env2).2)
      | Except.ok false =>
        (Except.ok false,
          (continue_next env1).2 ++ [Event.forceValid] ++ (continue_next env2).2
            ++ [Event.saveArtifacts "auth_gate"])

/-- Environment of one `AuthPage.click_continue_and_capture` invocation
(auth_page.py lines 61-142).  `currentUrlRaises`: reading
`driver.current_url` at line 78 raises (uncaught); `btnQueryRaises`: the
`find_elements` at line 81 raises (uncaught); `btnPresent`: that query
finds the `buttonNext` button; `clickWorks` / `jsClickWorks`: the ordinary
click at line 94 / the JS-click fallback at lines 98-99 succeeds; `wait1` /
`wait2`: what the two bounded URL waits (lines 110-114 and 135-139)
observe.  The marker component of the observations is recorded but the
code's wait conditions read only `current_url`. -/
structure AuthEnv where
  currentUrlRaises : Bool
  btnQueryRaises : Bool
  btnPresent : Bool
  clickWorks : Bool
  jsClickWorks : Bool
  wait1 : Obs
  wait2 : Obs
  deriving DecidableEq, Repr

/-- `AuthPage.click_continue_and_capture` (auth_page.py lines 61-142).
Both of its transition waits use the condition
`d.current_url != url_before` only.  Every `return False` is preceded by a
`save_artifacts(tag)` call; both `return True` paths write nothing. -/
def click_continue_and_capture (env : AuthEnv) (tagArg : Option String) :
    Except Unit Bool × List Event :=
  let tag := tagArg.getD "auth_gate_login"
  if env.currentUrlRaises = true then (Except.error (), [])
  else if env.btnQueryRaises = true then (Except.error (), [])
  else if env.btnPresent = false then
    (Except.ok false, [Event.saveArtifacts tag])
  else if (env.clickWorks || env.jsClickWorks) = false then
    (Except.ok false, [Event.saveArtifacts tag])
  else if env.wait1.urlChanged = true then (Except.ok true, [])
  else if env.wait2.urlChanged = true then (Except.ok true, [])
  else (Except.ok false, [Event.saveArtifacts tag])

/-- Index (0-based) of the first polled observation satisfying a wait
condition, as `WebDriverWait.until` finds it; `none` models a timeout. -/
def first_poll_index (cond : Nat → Bool) : List Nat → Option Nat
  | [] => none
  | n :: rest =>
    if cond n then some 0 else (first_poll_index cond rest).map fun i => i + 1

/-- The condition of the new-tab wait in `BuyPage.search_trains`
(buy_page.py line 158): `len(d.window_handles) >= len(handles_before)`. -/
def new_tab_condition (handlesBefore handlesNow : Nat) : Bool :=
  decide (handlesBefore ≤ handlesNow)

/-- The new-tab wait of `BuyPage.search_trains` (buy_page.py lines
148-158): `handlesBefore` is the handle count captured before the submit
click, `observed` the handle counts seen at successive polls; the result is
the poll index at which the wait completes. -/
def search_trains_tab_wait (handlesBefore : Nat) (observed : List Nat) :
    Option Nat :=
  first_poll_index (fun n => new_tab_condition handlesBefore n) observed

/-- `[k, k+1, ..., k+d-1]`: the trigger numbers a run fires while walking
`d` consecutive triggers starting at number `k`. -/
def fire_range (k : Nat) : Nat → List Nat
  | 0 => []
  | d + 1 => k :: fire_range (k + 1) d

/-- `env` with trigger `k` replaced by one that fires without raising and
whose wait observes no signal: the behaviour the spec says a raising
trigger must be treated identically to. -/
def env_no_signal (env : ContinueEnv) (k : Nat) : ContinueEnv :=
  ⟨env.forceValidRaises, env.currentUrlRaises, env.btnFound, env.scrollRaises,
    fun j => if j = k then false else env.fireRaises j,
    fun j => if j = k then ⟨false, false⟩ else env.obs j⟩

/-- Concrete run: nothing raises, every wait observes a URL change. -/
def envC1 : ContinueEnv :=
  ⟨false, false, true, false, fun _ => false, fun _ => ⟨true, false⟩⟩

/-- Concrete run: nothing raises, only the wait after trigger 1 (the
Actions click) observes a signal. -/
def envC2 : ContinueEnv :=
  ⟨false, false, true, false, fun _ => false,
    fun j => if j = 1 then ⟨true, false⟩ else ⟨false, false⟩⟩

/-- Concrete run: firing trigger 0 (the ordinary click) raises, and no
wait ever observes a signal. -/
def envC3 : ContinueEnv :=
  ⟨false, false, true, false, fun j => j == 0, fun _ => ⟨false, false⟩⟩

/-- Concrete run: nothing raises and no wait ever observes a signal. -/
def envC4 : ContinueEnv :=
  ⟨false, false, true, false, fun _ => false, fun _ => ⟨false, false⟩⟩

/-- Concrete auth run: button present and clickable, URL never changes. -/
def authEnvC4 : AuthEnv :=
  ⟨false, false, true, true, true, ⟨false, false⟩, ⟨false, false⟩⟩

/-- Concrete run: nothing raises and no wait ever observes a signal. -/
def envC6 : ContinueEnv :=
  ⟨false, false, true, false, fun _ => false, fun _ => ⟨false, false⟩⟩

/-- Concrete auth run: a seat-map marker element is present throughout
both waits, yet the URL never changes; the button is present and the
ordinary click succeeds. -/
def authEnvC5 : AuthEnv :=
  ⟨false, false, true, true, true, ⟨false, true⟩, ⟨false, true⟩⟩

/-- Concrete results-page run: every wait observes a present marker
element but no URL change. -/
def envC5r : ContinueEnv :=
  ⟨false, false, true, false, fun _ => false, fun _ => ⟨false, true⟩⟩

/-- Concrete auth run: the first wait observes a URL change. -/
def authEnvC5w : AuthEnv :=
  ⟨false, false, true, true, true, ⟨true, false⟩, ⟨false, false⟩⟩

/-- Concrete auth run: the `buttonNext` query finds no button. -/
def authEnvC7 : AuthEnv :=
  ⟨false, false, false, false, false, ⟨false, false⟩, ⟨false, false⟩⟩

/-- Concrete run for the first `continue_next` call of `select_ap125`:
nothing raises, no wait observes a signal. -/
def envC7a : ContinueEnv :=
  ⟨false, false, true, false, fun _ => false, fun _ => ⟨false, false⟩⟩

/-- Concrete run for the retried `continue_next` call of `select_ap125`:
nothing raises, no wait observes a signal. -/
def envC7b : ContinueEnv :=
  ⟨false, false, true, false, fun _ => false, fun _ => ⟨false, false⟩⟩

/-- Concrete auth run: the first wait observes a URL change, so the
operation returns `True`. -/
def authEnvC7w : AuthEnv :=
  ⟨false, false, true, true, true, ⟨true, false⟩, ⟨false, false⟩⟩

theorem firesOf_nil : firesOf [] = [] := rfl

theorem firesOf_fire (k : Nat) (tr : List Event) :
    firesOf (Event.fire k :: tr) = k :: firesOf tr := rfl

theorem firesOf_waitSignal (k : Nat) (tr : List Event) :
    firesOf (Event.waitSignal k :: tr) = firesOf tr := rfl

theorem firesOf_spinnerWait (tr : List Event) :
    firesOf (Event.spinnerWait :: tr) = firesOf tr := rfl

theorem firesOf_forceValid (tr : List Event) :
    firesOf (Event.forceValid :: tr) = firesOf tr := rfl

theorem firesOf_append (a b : List Event) :
    firesOf (a ++ b) = firesOf a ++ firesOf b := by
  simp [firesOf]

theorem fire_range_snoc (d : Nat) :
    ∀ k, fire_range k (d + 1) = fire_range k d ++ [k + d] := by
  induction d with
  | zero => intro k; simp [fire_range]
  | succ n ih =>
    intro k
    have h : k + 1 + n = k + (n + 1) := by omega
    calc fire_range k (n + 1 + 1) = k :: fire_range (k + 1) (n + 1) := rfl
      _ = k :: (fire_range (k + 1) n ++ [k + 1 + n]) := by rw [ih]
      _ = fire_range k (n + 1) ++ [k + (n + 1)] := by rw [h]; rfl

theorem fire_range_eq_range : ∀ n, fire_range 0 n = List.range n := by
  intro n
  induction n with
  | zero => rfl
  | succ m ih => rw [fire_range_snoc, ih, Nat.zero_add, List.range_succ]

/-- Every run of the trigger chain begins by firing the trigger it starts
at. -/
theorem run_triggers_head (env : ContinueEnv) (fuel k : Nat) :
    ∃ rest, (run_triggers env fuel k).2 = Event.fire k :: rest := by
  cases fuel with
  | zero => exact ⟨[Event.waitSignal k], rfl⟩
  | succ n =>
    cases hr : env.fireRaises k with
    | true => exact ⟨(run_triggers env n (k + 1)).2, by simp [run_triggers, hr]⟩
    | false =>
      cases hw : wait_transition (env.obs k) with
      | true => exact ⟨[Event.waitSignal k], by simp [run_triggers, hr, hw]⟩
      | false =>
        exact ⟨Event.waitSignal k :: (run_triggers env n (k + 1)).2,
          by simp [run_triggers, hr, hw]⟩

/-- If a run of the trigger chain produces `true`, then some trigger in it
was fired, the bounded wait after that trigger was performed, and that wait
observed a transition signal. -/
theorem run_triggers_true (env : ContinueEnv) :
    ∀ fuel k, (run_triggers env fuel k).1 = true →
      ∃ j, Event.fire j ∈ (run_triggers env fuel k).2 ∧
        Event.waitSignal j ∈ (run_triggers env fuel k).2 ∧
        wait_transition (env.obs j) = true := by
  intro fuel
  induction fuel with
  | zero =>
    intro k h
    exact ⟨k, by simp [run_triggers], by simp [run_triggers],
      by simpa [run_triggers] using h⟩
  | succ n ih =>
    intro k h
    cases hr : env.fireRaises k with
    | true =>
      simp only [run_triggers, hr, if_true] at h ⊢
      obtain ⟨j, h1, h2, h3⟩ := ih (k + 1) (by simpa using h)
      exact ⟨j, by simp [h1], by simp [h2], h3⟩
    | false =>
      cases hw : wait_transition (env.obs k) with
      | true =>
        refine ⟨k, ?_, ?_, hw⟩ <;> simp [run_triggers, hr, hw]
      | false =>
        simp only [run_triggers, hr, hw, Bool.false_eq_true, if_false] at h ⊢
        obtain ⟨j, h1, h2, h3⟩ := ih (k + 1) (by simpa using h)
        exact ⟨j, by simp [h1], by simp [h2], h3⟩

/-- If no bounded wait along the chain can observe a signal, the chain
produces `false` and fires each trigger from its start to the last one,
each exactly once, in increasing order. -/
theorem run_triggers_exhaust (env : ContinueEnv) :
    ∀ fuel k, (∀ j, j ≤ k + fuel → wait_transition (env.obs j) = false) →
      (run_triggers env fuel k).1 = false ∧
      firesOf (run_triggers env fuel k).2 = fire_range k (fuel + 1) := by
  intro fuel
  induction fuel with
  | zero =>
    intro k hs
    refine ⟨by simpa [run_triggers] using hs k (by omega), ?_⟩
    simp [run_triggers, firesOf, fire_range]
  | succ n ih =>
    intro k hs
    have hk : wait_transition (env.obs k) = false := hs k (by omega)
    have ihk := ih (k + 1) (fun j hj => hs j (by omega))
    cases hr : env.fireRaises k with
    | true =>
      refine ⟨by simpa [run_triggers, hr] using ihk.1, ?_⟩
      simp only [run_triggers, hr, if_true]
      rw [firesOf_fire, ihk.2]
      rfl
    | false =>
      refine ⟨by simpa [run_triggers, hr, hk] using ihk.1, ?_⟩
      simp only [run_triggers, hr, hk, Bool.false_eq_true, if_false]
      rw [firesOf_fire, firesOf_waitSignal, ihk.2]
      rfl

/-- Walking past `d` consecutive triggers that all fail (their firing
raises, or their wait observes nothing) neither changes the final result
nor fires anything except those `d` triggers, in order. -/
theorem run_triggers_skip (env : ContinueEnv) :
    ∀ d n k,
      (∀ j, k ≤ j → j < k + d →
        env.fireRaises j = true ∨ wait_transition (env.obs j) = false) →
      (run_triggers env (d + n) k).1 = (run_triggers env n (k + d)).1 ∧
      ∃ p, (run_triggers env (d + n) k).2 = p ++ (run_triggers env n (k + d)).2 ∧
        firesOf p = fire_range k d := by
  intro d
  induction d with
  | zero =>
    intro n k _
    rw [Nat.zero_add]
    exact ⟨rfl, [], rfl, rfl⟩
  | succ m ih =>
    intro n k hfail
    have harith : m + 1 + n = m + n + 1 := by omega
    have hpos : k + (m + 1) = k + 1 + m := by omega
    rw [harith, hpos]
    have hk : env.fireRaises k = true ∨ wait_transition (env.obs k) = false :=
      hfail k (by omega) (by omega)
    obtain ⟨hres, p, hp1, hp2⟩ :=
      ih n (k + 1) (fun j hj1 hj2 => hfail j (by omega) (by omega))
    cases hr : env.fireRaises k with
    | true =>
      refine ⟨by simpa [run_triggers, hr] using hres, Event.fire k :: p, ?_, ?_⟩
      · simp only [run_triggers, hr, if_true]
        rw [hp1]
        rfl
      · rw [firesOf_fire, hp2]
        rfl
    | false =>
      have hw : wait_transition (env.obs k) = false := by
        cases hk with
        | inl h => rw [hr] at h; exact absurd h (by simp)
        | inr h => exact h
      refine ⟨by simpa [run_triggers, hr, hw] using hres,
        Event.fire k :: Event.waitSignal k :: p, ?_, ?_⟩
      · simp only [run_triggers, hr, hw, Bool.false_eq_true, if_false]
        rw [hp1]
        rfl
      · rw [firesOf_fire, firesOf_waitSignal, hp2]
        rfl

/-- The trigger chain reads only the firing outcomes and wait observations
at trigger numbers at or beyond its start. -/
theorem run_triggers_congr (env1 env2 : ContinueEnv) :
    ∀ fuel k, (∀ j, k ≤ j → env1.fireRaises j = env2.fireRaises j) →
      (∀ j, k ≤ j → env1.obs j = env2.obs j) →
      run_triggers env1 fuel k = run_triggers env2 fuel k := by
  intro fuel
  induction fuel with
  | zero =>
    intro k _ ho
    simp only [run_triggers]
    rw [ho k (le_refl k)]
  | succ n ih =>
    intro k hf ho
    have hstep := ih (k + 1) (fun j hj => hf j (by omega)) (fun j hj => ho j (by omega))
    simp only [run_triggers]
    rw [hf k (le_refl k), ho k (le_refl k), hstep]

/-- The trigger chain never saves artifacts. -/
theorem run_triggers_no_save (env : ContinueEnv) :
    ∀ fuel k tg, Event.saveArtifacts tg ∉ (run_triggers env fuel k).2 := by
  intro fuel
  induction fuel with
  | zero => intro k tg; simp [run_triggers]
  | succ n ih =>
    intro k tg
    cases hr : env.fireRaises k with
    | true => simpa [run_triggers, hr] using ih (k + 1) tg
    | false =>
      cases hw : wait_transition (env.obs k) with
      | true => simp [run_triggers, hr, hw]
      | false => simpa [run_triggers, hr, hw] using ih (k + 1) tg

/-- On the path where nothing before the trigger chain raises,
`continue_next` returns the chain's boolean as an ordinary value and its
trace is the preamble followed by the chain's trace. -/
theorem continue_next_run (env : ContinueEnv)
    (hfv : env.forceValidRaises = false) (hcu : env.currentUrlRaises = false)
    (hbtn : env.btnFound = true) (hsc : env.scrollRaises = false) :
    continue_next env =
      (Except.ok (run_triggers env 5 0).1,
        Event.spinnerWait :: Event.forceValid :: (run_triggers env 5 0).2) := by
  simp [continue_next, hfv, hcu, hbtn, hsc]

/-- `continue_next` never calls the diagnostic sink. -/
theorem continue_next_no_save (env : ContinueEnv) (tg : String) :
    Event.saveArtifacts tg ∉ (continue_next env).2 := by
  have h := run_triggers_no_save env 5 0 tg
  cases hfv : env.forceValidRaises <;> cases hcu : env.currentUrlRaises <;>
    cases hbtn : env.btnFound <;> cases hsc : env.scrollRaises <;>
      simp [continue_next, hfv, hcu, hbtn, hsc, h]

/-- A trigger whose firing does not raise (a condition that is vacuous for
the last trigger, whose wait runs regardless) and whose wait observes a
signal makes the chain stop there with `true`. -/
theorem run_triggers_success (env : ContinueEnv) (fuel k : Nat)
    (hfire : 0 < fuel → env.fireRaises k = false)
    (hsig : wait_transition (env.obs k) = true) :
    run_triggers env fuel k = (true, [Event.fire k, Event.waitSignal k]) := by
  cases fuel with
  | zero => simp [run_triggers, hsig]
  | succ n => simp [run_triggers, hfire (by omega), hsig]

/-- If every trigger before number `k` fails (raises on firing, or its wait
observes nothing), trigger `k` does not raise (unless it is the last one,
whose wait runs regardless) and the wait after trigger `k` observes a
signal, then `continue_next` returns `True` having fired exactly the
triggers `0, ..., k`, in order. -/
theorem continue_next_first_success (env : ContinueEnv) (k : Nat)
    (hfv : env.forceValidRaises = false) (hcu : env.currentUrlRaises = false)
    (hbtn : env.btnFound = true) (hsc : env.scrollRaises = false)
    (hk : k ≤ 5)
    (hfire : k < 5 → env.fireRaises k = false)
    (hsig : wait_transition (env.obs k) = true)
    (hbefore : ∀ j, j < k →
      env.fireRaises j = true ∨ wait_transition (env.obs j) = false) :
    (continue_next env).1 = Except.ok true ∧
    firesOf (continue_next env).2 = List.range (k + 1) := by
  have h5 : k + (5 - k) = 5 := by omega
  have hskip := run_triggers_skip env k (5 - k) 0
    (fun j hj1 hj2 => hbefore j (by omega))
  rw [h5, Nat.zero_add] at hskip
  obtain ⟨hres, p, hp1, hp2⟩ := hskip
  have hsucc := run_triggers_success env (5 - k) k (fun h0 => hfire (by omega)) hsig
  rw [continue_next_run env hfv hcu hbtn hsc]
  constructor
  · show Except.ok (run_triggers env 5 0).1 = Except.ok true
    rw [hres, hsucc]
  · show firesOf (Event.spinnerWait :: Event.forceValid :: (run_triggers env 5 0).2)
      = List.range (k + 1)
    rw [firesOf_spinnerWait, firesOf_forceValid, hp1, hsucc, firesOf_append, hp2]
    show fire_range 0 k ++ [k] = List.range (k + 1)
    rw [fire_range_eq_range, List.range_succ]

/-- If `(continue_next env).1` is an ordinary `True`, the run went through
the preamble without raising and the trigger chain produced `true`. -/
theorem continue_next_ok_true (env : ContinueEnv)
    (h : (continue_next env).1 = Except.ok true) :
    env.forceValidRaises = false ∧ env.currentUrlRaises = false ∧
    env.btnFound = true ∧ env.scrollRaises = false ∧
    (run_triggers env 5 0).1 = true := by
  cases hfv : env.forceValidRaises <;> cases hcu : env.currentUrlRaises <;>
    cases hbtn : env.btnFound <;> cases hsc : env.scrollRaises <;>
      simp_all [continue_next]

/-- A fired trigger number appears among the fires of the trace. -/
theorem fire_mem_firesOf {j : Nat} {tr : List Event}
    (h : Event.fire j ∈ tr) : j ∈ firesOf tr := by
  simp only [firesOf, List.mem_filterMap]
  exact ⟨Event.fire j, h, rfl⟩

/-- C1: whenever `ResultsPage.continue_next` returns `True`, some trigger
was fired during that invocation and the bounded wait performed after it
observed a transition signal — the current URL differed from the URL
captured at the start of the invocation, or a seat-map marker element of
the destination step was present.  It never returns `True` with no signal
observed. -/
theorem c1_advance_true_implies_signal (env : ContinueEnv)
    (h : (continue_next env).1 = Except.ok true) :
    ∃ k, Event.fire k ∈ (continue_next env).2 ∧
      Event.waitSignal k ∈ (continue_next env).2 ∧
      ((env.obs k).urlChanged = true ∨ (env.obs k).marker = true) := by
  obtain ⟨hfv, hcu, hbtn, hsc, hloop⟩ := continue_next_ok_true env h
  rw [continue_next_run env hfv hcu hbtn hsc]
  obtain ⟨j, h1, h2, h3⟩ := run_triggers_true env 5 0 hloop
  exact ⟨j, by simp [h1], by simp [h2],
    by simpa [wait_transition] using h3⟩

/-- Witness for C1: a concrete run whose first wait observes a URL
change. -/
theorem c1_advance_true_implies_signal_witness :
    (continue_next envC1).1 = Except.ok true ∧
    ∃ k, Event.fire k ∈ (continue_next envC1).2 ∧
      Event.waitSignal k ∈ (continue_next envC1).2 ∧
      ((envC1.obs k).urlChanged = true ∨ (envC1.obs k).marker = true) :=
  ⟨rfl, c1_advance_true_implies_signal envC1 rfl⟩

/-- C2: the six triggers (0 ordinary click, 1 Actions click, 2 JS click,
3 Enter key, 4 direct form submit, 5 remove-disabled-then-click) are
attempted in that fixed priority order; if every trigger before `k` fails
and the wait after trigger `k` observes a signal, `continue_next` returns
`True` having fired exactly the triggers `0, ..., k` in order, and no
trigger after `k` is ever fired. -/
theorem c2_triggers_in_priority_order (env : ContinueEnv) (k : Nat)
    (hfv : env.forceValidRaises = false) (hcu : env.currentUrlRaises = false)
    (hbtn : env.btnFound = true) (hsc : env.scrollRaises = false)
    (hk : k ≤ 5)
    (hfire : k < 5 → env.fireRaises k = false)
    (hsig : wait_transition (env.obs k) = true)
    (hbefore : ∀ j, j < k →
      env.fireRaises j = true ∨ wait_transition (env.obs j) = false) :
    (continue_next env).1 = Except.ok true ∧
    firesOf (continue_next env).2 = List.range (k + 1) ∧
    ∀ j, k < j → Event.fire j ∉ (continue_next env).2 := by
  obtain ⟨h1, h2⟩ :=
    continue_next_first_success env k hfv hcu hbtn hsc hk hfire hsig hbefore
  refine ⟨h1, h2, fun j hj hmem => ?_⟩
  have hmem2 := fire_mem_firesOf hmem
  rw [h2] at hmem2
  have := List.mem_range.mp hmem2
  omega

/-- Witness for C2: a concrete run where only trigger 1 (the Actions
click) is followed by a signal; triggers 0 and 1 fire, 2-5 never do. -/
theorem c2_triggers_in_priority_order_witness :
    (continue_next envC2).1 = Except.ok true ∧
    firesOf (continue_next envC2).2 = List.range 2 ∧
    ∀ j, 1 < j → Event.fire j ∉ (continue_next envC2).2 :=
  c2_triggers_in_priority_order envC2 1 rfl rfl rfl rfl (by omega)
    (fun _ => rfl) rfl (by decide)

/-- C3: if firing one of the first five triggers raises while it is
reached, the exception is not propagated (the result is still an ordinary
boolean), the next trigger in the ordered sequence is still fired, and the
invocation's result and fired-trigger sequence are identical to those of a
run in which that trigger fired without raising but produced no signal. -/
theorem c3_trigger_raise_tolerated (env : ContinueEnv) (k : Nat)
    (hfv : env.forceValidRaises = false) (hcu : env.currentUrlRaises = false)
    (hbtn : env.btnFound = true) (hsc : env.scrollRaises = false)
    (hk : k < 5)
    (hraise : env.fireRaises k = true)
    (hbefore : ∀ j, j < k →
      env.fireRaises j = true ∨ wait_transition (env.obs j) = false) :
    (∃ b, (continue_next env).1 = Except.ok b) ∧
    Event.fire (k + 1) ∈ (continue_next env).2 ∧
    (continue_next env).1 = (continue_next (env_no_signal env k)).1 ∧
    firesOf (continue_next env).2 =
      firesOf (continue_next (env_no_signal env k)).2 := by
  have hfv' : (env_no_signal env k).forceValidRaises = false := hfv
  have hcu' : (env_no_signal env k).currentUrlRaises = false := hcu
  have hbtn' : (env_no_signal env k).btnFound = true := hbtn
  have hsc' : (env_no_signal env k).scrollRaises = false := hsc
  have h5 : k + (5 - k) = 5 := by omega
  have hm : 5 - k = (5 - k - 1) + 1 := by omega
  have hbefore' : ∀ j, j < k →
      (env_no_signal env k).fireRaises j = true ∨
      wait_transition ((env_no_signal env k).obs j) = false := by
    intro j hj
    have hne : j ≠ k := by omega
    simpa [env_no_signal, hne] using hbefore j hj
  have hskip := run_triggers_skip env k (5 - k) 0
    (fun j hj1 hj2 => hbefore j (by omega))
  rw [h5, Nat.zero_add] at hskip
  obtain ⟨hres, p, hp1, hp2⟩ := hskip
  have hskip' := run_triggers_skip (env_no_signal env k) k (5 - k) 0
    (fun j hj1 hj2 => hbefore' j (by omega))
  rw [h5, Nat.zero_add] at hskip'
  obtain ⟨hres', p', hp1', hp2'⟩ := hskip'
  have henv : run_triggers env (5 - k) k =
      ((run_triggers env (5 - k - 1) (k + 1)).1,
        Event.fire k :: (run_triggers env (5 - k - 1) (k + 1)).2) := by
    rw [hm]
    simp [run_triggers, hraise]
  have h1' : (env_no_signal env k).fireRaises k = false := by
    simp [env_no_signal]
  have h2' : wait_transition ((env_no_signal env k).obs k) = false := by
    simp [env_no_signal, wait_transition]
  have henv' : run_triggers (env_no_signal env k) (5 - k) k =
      ((run_triggers (env_no_signal env k) (5 - k - 1) (k + 1)).1,
        Event.fire k :: Event.waitSignal k ::
          (run_triggers (env_no_signal env k) (5 - k - 1) (k + 1)).2) := by
    rw [hm]
    simp [run_triggers, h1', h2']
  have hcongr : run_triggers (env_no_signal env k) (5 - k - 1) (k + 1) =
      run_triggers env (5 - k - 1) (k + 1) := by
    refine run_triggers_congr (env_no_signal env k) env (5 - k - 1) (k + 1)
      (fun j hj => ?_) (fun j hj => ?_) <;>
      · have hne : j ≠ k := by omega
        simp [env_no_signal, hne]
  obtain ⟨rest, hhead⟩ := run_triggers_head env (5 - k - 1) (k + 1)
  refine ⟨?_, ?_, ?_, ?_⟩
  · rw [continue_next_run env hfv hcu hbtn hsc]
    exact ⟨(run_triggers env 5 0).1, rfl⟩
  · rw [continue_next_run env hfv hcu hbtn hsc]
    have : (run_triggers env 5 0).2 =
        p ++ (Event.fire k :: Event.fire (k + 1) :: rest) := by
      rw [hp1, henv, hhead]
    rw [this]
    simp
  · rw [continue_next_run env hfv hcu hbtn hsc,
      continue_next_run (env_no_signal env k) hfv' hcu' hbtn' hsc']
    show Except.ok (run_triggers env 5 0).1 =
      Except.ok (run_triggers (env_no_signal env k) 5 0).1
    rw [hres, hres', henv, henv', hcongr]
  · rw [continue_next_run env hfv hcu hbtn hsc,
      continue_next_run (env_no_signal env k) hfv' hcu' hbtn' hsc']
    show firesOf (Event.spinnerWait :: Event.forceValid ::
        (run_triggers env 5 0).2) =
      firesOf (Event.spinnerWait :: Event.forceValid ::
        (run_triggers (env_no_signal env k) 5 0).2)
    rw [firesOf_spinnerWait, firesOf_forceValid,
      firesOf_spinnerWait, firesOf_forceValid,
      hp1, hp1', henv, henv', hcongr, firesOf_append, firesOf_append, hp2, hp2']
    show fire_range 0 k ++
        firesOf (Event.fire k :: (run_triggers env (5 - k - 1) (k + 1)).2) =
      fire_range 0 k ++
        firesOf (Event.fire k :: Event.waitSignal k ::
          (run_triggers env (5 - k - 1) (k + 1)).2)
    rw [firesOf_fire, firesOf_fire, firesOf_waitSignal]

/-- Witness for C3: a concrete run where firing trigger 0 raises; trigger 1
is still fired, no exception escapes, and the run is equivalent to one
where trigger 0 fired with no signal. -/
theorem c3_trigger_raise_tolerated_witness :
    (∃ b, (continue_next envC3).1 = Except.ok b) ∧
    Event.fire 1 ∈ (continue_next envC3).2 ∧
    (continue_next envC3).1 = (continue_next (env_no_signal envC3 0)).1 ∧
    firesOf (continue_next envC3).2 =
      firesOf (continue_next (env_no_signal envC3 0)).2 :=
  c3_trigger_raise_tolerated envC3 0 rfl rfl rfl rfl (by omega) rfl
    (by decide)

/-- C4: under exhaustion — the run reaches the trigger chain and no bounded
wait ever observes a transition signal — the advance operations return the
ordinary boolean `False` (`Except.ok false`), not an exception: nothing
crosses the operation boundary on such a run.  Stated for
`ResultsPage.continue_next` and for `AuthPage.click_continue_and_capture`. -/
theorem c4_exhaustion_returns_false_not_error :
    (∀ env : ContinueEnv,
      env.forceValidRaises = false → env.currentUrlRaises = false →
      env.btnFound = true → env.scrollRaises = false →
      (∀ j, j ≤ 5 → wait_transition (env.obs j) = false) →
      (continue_next env).1 = Except.ok false) ∧
    (∀ (env : AuthEnv) (t : Option String),
      env.currentUrlRaises = false → env.btnQueryRaises = false →
      env.wait1.urlChanged = false → env.wait2.urlChanged = false →
      (click_continue_and_capture env t).1 = Except.ok false) := by
  constructor
  · intro env hfv hcu hbtn hsc hsig
    have hex := run_triggers_exhaust env 5 0 (fun j hj => hsig j (by omega))
    rw [continue_next_run env hfv hcu hbtn hsc]
    show Except.ok (run_triggers env 5 0).1 = Except.ok false
    rw [hex.1]
  · intro env t hcu hbq h1 h2
    cases hbp : env.btnPresent <;> cases hcw : env.clickWorks <;>
      cases hjw : env.jsClickWorks <;>
        simp [click_continue_and_capture, hcu, hbq, hbp, hcw, hjw, h1, h2]

/-- Witness for C4: concrete exhaustion runs of both operations. -/
theorem c4_exhaustion_returns_false_not_error_witness :
    (continue_next envC4).1 = Except.ok false ∧
    (click_continue_and_capture authEnvC4 none).1 = Except.ok false :=
  ⟨c4_exhaustion_returns_false_not_error.1 envC4 rfl rfl rfl rfl (by decide),
    c4_exhaustion_returns_false_not_error.2 authEnvC4 none rfl rfl rfl rfl⟩

/-- C6: when no bounded wait in the invocation observes a transition
signal, `continue_next` returns `False` after having fired every one of the
six triggers exactly once, in priority order `0, 1, 2, 3, 4, 5`, with no
trigger retried within the invocation. -/
theorem c6_exhaustion_fires_each_trigger_once (env : ContinueEnv)
    (hfv : env.forceValidRaises = false) (hcu : env.currentUrlRaises = false)
    (hbtn : env.btnFound = true) (hsc : env.scrollRaises = false)
    (hsig : ∀ j, j ≤ 5 → wait_transition (env.obs j) = false) :
    (continue_next env).1 = Except.ok false ∧
    firesOf (continue_next env).2 = [0, 1, 2, 3, 4, 5] := by
  have hex := run_triggers_exhaust env 5 0 (fun j hj => hsig j (by omega))
  rw [continue_next_run env hfv hcu hbtn hsc]
  constructor
  · show Except.ok (run_triggers env 5 0).1 = Except.ok false
    rw [hex.1]
  · show firesOf (Event.spinnerWait :: Event.forceValid ::
        (run_triggers env 5 0).2) = [0, 1, 2, 3, 4, 5]
    rw [firesOf_spinnerWait, firesOf_forceValid, hex.2]
    rfl

/-- Witness for C6: a concrete exhaustion run. -/
theorem c6_exhaustion_fires_each_trigger_once_witness :
    (continue_next envC6).1 = Except.ok false ∧
    firesOf (continue_next envC6).2 = [0, 1, 2, 3, 4, 5] :=
  c6_exhaustion_fires_each_trigger_once envC6 rfl rfl rfl rfl (by decide)

/-- C5 counterexample: the claim asserts that marker presence alone makes
*both* step-advancement checks succeed, including the authentication-gate
continue.  On this concrete auth run a seat-map marker element is present
throughout both waits while the URL never changes, the button is present
and clickable — yet `click_continue_and_capture` returns `False`, because
both of its wait conditions read only `current_url`. -/
theorem c5_counterexample :
    authEnvC5.wait1.marker = true ∧ authEnvC5.wait1.urlChanged = false ∧
    authEnvC5.wait2.marker = true ∧ authEnvC5.wait2.urlChanged = false ∧
    (click_continue_and_capture authEnvC5 none).1 = Except.ok false :=
  ⟨rfl, rfl, rfl, rfl, rfl⟩

/-- C5 amended: the location-OR-marker disjunction holds for the
results-page advance — if the wait after the first reachable successful
trigger observes a present marker element, `continue_next` returns `True`
even with the location unchanged — but the authentication-gate continue
succeeds only on a location change: whenever it returns `True`, one of its
two waits observed a URL change. -/
theorem c5_amended_signal_is_location_or_marker :
    (∀ (env : ContinueEnv) (k : Nat),
      env.forceValidRaises = false → env.currentUrlRaises = false →
      env.btnFound = true → env.scrollRaises = false →
      k ≤ 5 → (k < 5 → env.fireRaises k = false) →
      (env.obs k).urlChanged = false → (env.obs k).marker = true →
      (∀ j, j < k →
        env.fireRaises j = true ∨ wait_transition (env.obs j) = false) →
      (continue_next env).1 = Except.ok true) ∧
    (∀ (env : AuthEnv) (t : Option String),
      (click_continue_and_capture env t).1 = Except.ok true →
      env.wait1.urlChanged = true ∨ env.wait2.urlChanged = true) := by
  constructor
  · intro env k hfv hcu hbtn hsc hk hfire hurl hmark hbefore
    have hsig : wait_transition (env.obs k) = true := by
      simp [wait_transition, hmark]
    exact (continue_next_first_success env k hfv hcu hbtn hsc hk hfire
      hsig hbefore).1
  · intro env t h
    by_cases h1 : env.wait1.urlChanged = true
    · exact Or.inl h1
    · by_cases h2 : env.wait2.urlChanged = true
      · exact Or.inr h2
      · exfalso
        cases hcu : env.currentUrlRaises <;> cases hbq : env.btnQueryRaises <;>
          cases hbp : env.btnPresent <;> cases hcw : env.clickWorks <;>
            cases hjw : env.jsClickWorks <;>
              simp_all [click_continue_and_capture]

/-- Witness for the amended C5: a results run where only markers appear
(no URL change) still returns `True`; an auth run returning `True` indeed
had a URL change. -/
theorem c5_amended_signal_is_location_or_marker_witness :
    (continue_next envC5r).1 = Except.ok true ∧
    (authEnvC5w.wait1.urlChanged = true ∨ authEnvC5w.wait2.urlChanged = true) :=
  ⟨c5_amended_signal_is_location_or_marker.1 envC5r 0 rfl rfl rfl rfl
      (by omega) (fun _ => rfl) rfl rfl (by decide),
    c5_amended_signal_is_location_or_marker.2 authEnvC5w none rfl⟩

/-- C7 counterexample: `AuthPage.click_continue_and_capture` is one of the
program's step-advancement operations (it fires the continue triggers and
waits for the transition), yet on this concrete run (the `buttonNext`
query finds nothing) it invokes `save_artifacts` from inside the operation
itself before returning `False` — contradicting the claim that the
snapshot bundle is never persisted from inside an advancement operation. -/
theorem c7_counterexample :
    Event.saveArtifacts "auth_gate_login" ∈
      (click_continue_and_capture authEnvC7 none).2 ∧
    (click_continue_and_capture authEnvC7 none).1 = Except.ok false := by
  constructor
  · show Event.saveArtifacts "auth_gate_login" ∈
      [Event.saveArtifacts "auth_gate_login"]
    simp
  · rfl

/-- C7 amended: `ResultsPage.continue_next` itself never writes diagnostic
artifacts — it only returns a boolean — and its caller `select_ap125`
invokes the snapshot sink only after observing `False` from both advance
attempts; `AuthPage.click_continue_and_capture`, by contrast, does invoke
`save_artifacts` from inside the operation on its `False`-returning paths,
though never on a `True`-returning path. -/
theorem c7_amended_artifact_sink_usage :
    (∀ (env : ContinueEnv) (tg : String),
      Event.saveArtifacts tg ∉ (continue_next env).2) ∧
    (∀ (fv : Bool) (env1 env2 : ContinueEnv),
      Event.saveArtifacts "auth_gate" ∈ (select_ap125_advance fv env1 env2).2 →
      (select_ap125_advance fv env1 env2).1 = Except.ok false ∧
      (continue_next env1).1 = Except.ok false ∧
      (continue_next env2).1 = Except.ok false) ∧
    (∀ (env : AuthEnv) (t : Option String),
      (click_continue_and_capture env t).1 = Except.ok true →
      ∀ tg, Event.saveArtifacts tg ∉ (click_continue_and_capture env t).2) := by
  refine ⟨continue_next_no_save, ?_, ?_⟩
  · intro fv env1 env2 hmem
    rcases hr1 : (continue_next env1).1 with e | b
    · simp only [select_ap125_advance, hr1] at hmem
      exact absurd hmem (continue_next_no_save env1 _)
    · cases b with
      | true =>
        simp only [select_ap125_advance, hr1] at hmem
        exact absurd hmem (continue_next_no_save env1 _)
      | false =>
        cases hfv : fv with
        | true =>
          simp [select_ap125_advance, hr1, hfv,
            continue_next_no_save env1 "auth_gate"] at hmem
        | false =>
          rcases hr2 : (continue_next env2).1 with e2 | b2
          · simp [select_ap125_advance, hr1, hfv, hr2,
              continue_next_no_save env1 "auth_gate",
              continue_next_no_save env2 "auth_gate"] at hmem
          · cases b2 with
            | true =>
              simp [select_ap125_advance, hr1, hfv, hr2,
                continue_next_no_save env1 "auth_gate",
                continue_next_no_save env2 "auth_gate"] at hmem
            | false =>
              refine ⟨?_, rfl, rfl⟩
              simp [select_ap125_advance, hr1, hfv, hr2]
  · intro env t h tg
    cases hcu : env.currentUrlRaises <;> cases hbq : env.btnQueryRaises <;>
      cases hbp : env.btnPresent <;> cases hcw : env.clickWorks <;>
        cases hjw : env.jsClickWorks <;>
          cases hw1 : env.wait1.urlChanged <;> cases hw2 : env.wait2.urlChanged <;>
            simp_all [click_continue_and_capture]

/-- Witness for the amended C7: concrete runs — `continue_next` writes
nothing; a doubly failing `select_ap125` advance saved only after both
attempts returned `False`; an auth run returning `True` wrote nothing. -/
theorem c7_amended_artifact_sink_usage_witness :
    Event.saveArtifacts "auth_gate" ∉ (continue_next envC7a).2 ∧
    ((select_ap125_advance false envC7a envC7b).1 = Except.ok false ∧
      (continue_next envC7a).1 = Except.ok false ∧
      (continue_next envC7b).1 = Except.ok false) ∧
    Event.saveArtifacts "x" ∉ (click_continue_and_capture authEnvC7w none).2 :=
  ⟨c7_amended_artifact_sink_usage.1 envC7a "auth_gate",
    c7_amended_artifact_sink_usage.2.1 false envC7a envC7b (by decide),
    c7_amended_artifact_sink_usage.2.2 authEnvC7w none rfl "x"⟩

/-- C8: every invocation of `continue_next` performs the force-valid
mutation — `_force_valid`, which script-checks the `GO` radio and every
terms-related checkbox and dispatches synthetic `input`/`change` events —
right after the spinner wait and before any trigger is fired, including the
first, least-invasive ordinary click; so the form state is force-mutated on
every call, even those in which the ordinary click alone would have
sufficed.  The second conjunct records the mutation itself: after
`force_valid`, the `GO` radio and all `TERMS_ANY` checkboxes are checked. -/
theorem c8_force_valid_before_any_trigger :
    (∀ env : ContinueEnv, ∃ rest,
      (continue_next env).2 =
        Event.spinnerWait :: Event.forceValid :: rest) ∧
    (∀ s : FormState, (force_valid s).goChecked = true ∧
      ((force_valid s).termsChecked.all fun b => b) = true) := by
  constructor
  · intro env
    unfold continue_next
    split
    · exact ⟨[], rfl⟩
    · split
      · exact ⟨[], rfl⟩
      · split
        · exact ⟨[], rfl⟩
        · split
          · exact ⟨[], rfl⟩
          · exact ⟨(run_triggers env 5 0).2, rfl⟩
  · intro s
    refine ⟨rfl, ?_⟩
    simp [force_valid, List.all_eq_true]

/-- C9: `AuthPage.click_continue_and_capture` invokes the diagnostic
capture during an invocation if and only if that invocation returns the
ordinary `False`: every `False`-returning path saves the artifact bundle,
and no `True`-returning (or exception-propagating) path writes any
artifact. -/
theorem c9_auth_saves_iff_returns_false (env : AuthEnv) (t : Option String) :
    (click_continue_and_capture env t).1 = Except.ok false ↔
    Event.saveArtifacts (t.getD "auth_gate_login") ∈
      (click_continue_and_capture env t).2 := by
  cases hcu : env.currentUrlRaises <;> cases hbq : env.btnQueryRaises <;>
    cases hbp : env.btnPresent <;> cases hcw : env.clickWorks <;>
      cases hjw : env.jsClickWorks <;>
        cases hw1 : env.wait1.urlChanged <;> cases hw2 : env.wait2.urlChanged <;>
          simp [click_continue_and_capture, hcu, hbq, hbp, hcw, hjw, hw1, hw2]

/-- C10: the new-tab wait of `BuyPage.search_trains` uses the condition
`len(window_handles) >= len(handles_before)`; since handle counts cannot
have decreased, the condition already holds at the first poll, so the wait
completes at poll index 0 and `search_trains` proceeds without ever
blocking for a new tab. -/
theorem c10_tab_wait_satisfied_immediately (handlesBefore firstObserved : Nat)
    (rest : List Nat) (h : handlesBefore ≤ firstObserved) :
    new_tab_condition handlesBefore firstObserved = true ∧
    search_trains_tab_wait handlesBefore (firstObserved :: rest) = some 0 := by
  constructor
  · simpa [new_tab_condition] using h
  · simp [search_trains_tab_wait, first_poll_index, new_tab_condition, h]

/-- Witness for C10: one open tab before the click and still one open tab
at the first poll; the wait already completes there. -/
theorem c10_tab_wait_satisfied_immediately_witness :
    (1 : Nat) ≤ 1 ∧
    (new_tab_condition 1 1 = true ∧ search_trains_tab_wait 1 [1] = some 0) :=
  ⟨by omega, c10_tab_wait_satisfied_immediately 1 1 [] (by omega)⟩
